import Mathlib

/-!
Shallow embedding of the inference-serving pipeline of the
Lung-Diseases-Classification repository (src/app.py, src/simple_app.py,
src/model.py, src/simple_model.py), together with proofs about the claims of
its specification.

Modelling conventions: Python machine floats are modelled as rationals; the
Mersenne-Twister stream behind random.random and the md5 digest used by the
mock backend are opaque parameters of a MockEnv record, constrained only by
the documented contract of random.random (every draw lies in [0,1)); file
contents are byte lists; exceptions become Except values or an explicit
fail oracle naming the step of a request at which the runtime raised.
-/

/-- The fixed ordered class labels, CLASS_LABELS in simple_model.py and
model.py.  The CLASS_NAMES dict indexed by 0..2 carries the same mapping. -/
def CLASS_LABELS : List String := ["Lung Opacity", "Normal", "Viral Pneumonia"]

/-- NUM_CLASSES in simple_model.py and model.py. -/
def NUM_CLASSES : Nat := 3

/-- Value of the Python builtin max on a list of numbers, 0 on the empty list
(where Python would raise an exception instead). -/
def listMax : List ℚ → ℚ
  | [] => 0
  | [x] => x
  | x :: y :: xs => max x (listMax (y :: xs))

/-- Python list indexing probs[n], with default 0 for an out-of-range index
(where Python would raise an exception instead). -/
def nth (l : List ℚ) (n : Nat) : ℚ := l.getD n 0

lemma le_listMax {l : List ℚ} {x : ℚ} (hx : x ∈ l) : x ≤ listMax l := by
  induction l with
  | nil => cases hx
  | cons a t ih =>
    cases t with
    | nil =>
      rcases List.mem_singleton.mp hx with rfl
      exact le_refl _
    | cons b u =>
      rcases List.mem_cons.mp hx with rfl | hx2
      · exact le_max_left _ _
      · exact le_trans (ih hx2) (le_max_right _ _)

lemma listMax_mem {l : List ℚ} (h : l ≠ []) : listMax l ∈ l := by
  induction l with
  | nil => exact absurd rfl h
  | cons a t ih =>
    cases t with
    | nil => simp [listMax]
    | cons b u =>
      rcases le_total a (listMax (b :: u)) with hle | hle
      · have hmax : listMax (a :: b :: u) = listMax (b :: u) := by
          simp [listMax, max_eq_right hle]
        rw [hmax]
        exact List.mem_cons_of_mem _ (ih (by simp))
      · have hmax : listMax (a :: b :: u) = a := by
          simp [listMax, max_eq_left hle]
        rw [hmax]
        exact List.mem_cons_self _ _

lemma nth_indexOf {l : List ℚ} {a : ℚ} (h : a ∈ l) : nth l (l.indexOf a) = a := by
  induction l with
  | nil => cases h
  | cons b t ih =>
    by_cases hba : b = a
    · subst hba
      simp [nth, List.indexOf_cons_self]
    · have h2 : a ∈ t := by
        rcases List.mem_cons.mp h with rfl | h2
        · exact absurd rfl hba
        · exact h2
      have hidx : (b :: t).indexOf a = t.indexOf a + 1 := List.indexOf_cons_ne _ hba
      simpa [nth, hidx] using ih h2

lemma indexOf_lt_length_of_mem {l : List ℚ} {a : ℚ} (h : a ∈ l) :
    l.indexOf a < l.length :=
  List.indexOf_lt_length.mpr h

lemma indexOf_le_of_nth {l : List ℚ} {a : ℚ} {j : Nat} (hj : j < l.length)
    (h : nth l j = a) : l.indexOf a ≤ j := by
  induction l generalizing j with
  | nil => simp at hj
  | cons b t ih =>
    cases j with
    | zero =>
      have hb : b = a := by simpa [nth] using h
      simp [hb, List.indexOf_cons_self]
    | succ n =>
      by_cases hba : b = a
      · simp [hba, List.indexOf_cons_self]
      · rw [List.indexOf_cons_ne _ hba]
        have hn : n < t.length := by simpa using hj
        have h2 : nth t n = a := by simpa [nth] using h
        exact Nat.succ_le_succ (ih hn h2)

/-- The structured prediction returned by both backends: the dict with keys
class, confidence and all_predictions built in simple_model.py lines 78-85 and
model.py lines 96-103. -/
structure PredictionResult where
  cls : String
  confidence : ℚ
  all_predictions : List (String × ℚ)
deriving DecidableEq

/-- predicted_class_idx: probs.index(max(probs)) in simple_model.py line 74.
np.argmax in model.py line 90 has the same semantics (index of the first
occurrence of the maximum). -/
def predictedIdx (probs : List ℚ) : Nat := probs.indexOf (listMax probs)

/-- The result-formatting step shared by simple_model.generate_deterministic_prediction
(lines 73-85) and model.predict_image (lines 89-103): top class by first-argmax,
its probability as confidence, and the label-keyed distribution. -/
def formatResult (probs : List ℚ) : PredictionResult :=
  { cls := CLASS_LABELS.getD (predictedIdx probs) ""
    confidence := nth probs (predictedIdx probs)
    all_predictions := CLASS_LABELS.zip probs }

/-- model.predict_image of model.py, restricted to what happens after the
network returns its raw distribution predictions[0]: the formatting into a
PredictionResult. -/
def predict_image (dist : List ℚ) : PredictionResult := formatResult dist

/-- os.path.basename for POSIX paths: the component after the last slash. -/
def basenameStr (p : String) : String :=
  String.mk ((p.toList.reverse.takeWhile (fun c => c != '/')).reverse)

/-- Python str.lower restricted to the characters appearing in paths. -/
def lowerStr (s : String) : String := String.mk (s.toList.map Char.toLower)

/-- The characters after the last dot of a character list. -/
def afterLastDot (cs : List Char) : List Char :=
  (cs.reverse.takeWhile (fun c => c ≠ '.')).reverse

/-- The extension component of os.path.splitext: the suffix from the last dot
of the final path component, where leading dots of that component never start
an extension. -/
def extOf (p : String) : String :=
  let core := (basenameStr p).toList.dropWhile (fun c => c = '.')
  if core.contains '.' then String.mk ('.' :: afterLastDot core) else ""

/-- valid_extensions of simple_model.validate_image_simple (line 26). -/
def validExtensions : List String := [".png", ".jpg", ".jpeg", ".gif", ".bmp"]

/-- The magic-number check of simple_model.validate_image_simple lines 40-43:
PNG, JPEG, GIF87a, GIF89a or BMP signature at the start of the header bytes. -/
def matchesSignature (header : List Nat) : Bool :=
  [0x89, 0x50, 0x4E, 0x47].isPrefixOf header ||
  [0xFF, 0xD8].isPrefixOf header ||
  [0x47, 0x49, 0x46, 0x38, 0x37, 0x61].isPrefixOf header ||
  [0x47, 0x49, 0x46, 0x38, 0x39, 0x61].isPrefixOf header ||
  [0x42, 0x4D].isPrefixOf header

/-- simple_model.validate_image_simple (lines 17-48).  The filesystem is
abstracted to the bytes stored at the path: none models a missing file, in
which case os.path.exists fails the first check.  The source checks existence,
then the extension of the lowercased path, then that the file is nonempty,
then the signature of the first 10 bytes; the try/except around the read makes
any failure yield False, which the totality of this function reflects. -/
def validate_image_simple (img_path : String) (content : Option (List Nat)) : Bool :=
  match content with
  | none => false
  | some bytes =>
    if extOf (lowerStr img_path) ∈ validExtensions then
      if bytes.length = 0 then false
      else matchesSignature (bytes.take 10)
    else false

/-- The ambient deterministic machinery used by the mock backend: md5first8 is
int(hashlib.md5(x).hexdigest()[:8], 16), and rand s i is the i-th value of
random.random() after random.seed(s).  Both are fixed algorithms, identical in
every process, which the single shared record models. -/
structure MockEnv where
  md5first8 : String → Nat
  rand : Nat → Nat → ℚ

/-- The documented contract of random.random: every draw lies in [0, 1). -/
def MockEnv.Valid (env : MockEnv) : Prop :=
  ∀ s i, 0 ≤ env.rand s i ∧ env.rand s i < 1

/-- CPython random.uniform(a, b) = a + (b - a) * random.random(), with u the
underlying draw. -/
def uniformDraw (u a b : ℚ) : ℚ := a + (b - a) * u

/-- The seed derivation of simple_model.generate_deterministic_prediction
lines 59-64: hash filename_filesize and take the leading 8 hex digits. -/
def mockSeed (env : MockEnv) (filename : String) (filesize : Nat) : Nat :=
  env.md5first8 (filename ++ "_" ++ toString filesize)

/-- The raw draws of simple_model.py line 69:
[random.uniform(0.1, 0.9) for _ in range(NUM_CLASSES)] after seeding. -/
def rawProbs (env : MockEnv) (seed : Nat) : List ℚ :=
  (List.range NUM_CLASSES).map (fun i => uniformDraw (env.rand seed i) (1/10) (9/10))

/-- The L1 normalization of simple_model.py lines 70-71:
probs = [p/total for p in probs]. -/
def normalizeProbs (l : List ℚ) : List ℚ := l.map (fun p => p / l.sum)

/-- simple_model.generate_deterministic_prediction (lines 50-85): the mock
backend.  It reads only the basename of the path and the byte size of the
stored file (content.length models os.path.getsize), derives the seed, draws
three uniform values, normalizes, and formats. -/
def generate_deterministic_prediction (env : MockEnv) (img_path : String)
    (content : List Nat) : PredictionResult :=
  formatResult (normalizeProbs
    (rawProbs env (mockSeed env (basenameStr img_path) content.length)))

/-- simple_model.predict_image_simple (lines 87-99): validate, raising
ValueError("Invalid image file") on failure, else generate the mock
prediction.  The raise is modelled by the error branch. -/
def predict_image_simple (env : MockEnv) (img_path : String)
    (content : Option (List Nat)) : Except String PredictionResult :=
  if validate_image_simple img_path content then
    Except.ok (generate_deterministic_prediction env img_path (content.getD []))
  else
    Except.error "Invalid image file"

lemma rawProbs_eq (env : MockEnv) (seed : Nat) :
    rawProbs env seed =
      [uniformDraw (env.rand seed 0) (1/10) (9/10),
       uniformDraw (env.rand seed 1) (1/10) (9/10),
       uniformDraw (env.rand seed 2) (1/10) (9/10)] := rfl

/-- Division bounds for one normalized mock draw: if x is a draw in
[1/10, 9/10) and the total t exceeds x by the other two draws, the normalized
value lies in [1/19, 9/11]. -/
lemma div_bounds (x t : ℚ) (hx0 : 1/10 ≤ x) (hx1 : x < 9/10)
    (htl : x + 1/5 ≤ t) (hth : t < x + 9/5) :
    1/19 ≤ x / t ∧ x / t ≤ 9/11 := by
  have ht : 0 < t := lt_of_lt_of_le (by linarith) htl
  constructor
  · rw [le_div_iff₀ ht]
    linarith
  · rw [div_le_iff₀ ht]
    linarith

/-- The body of an HTTP response, by provenance: send_error HTML pages,
JSON error objects, JSON predictions, the rendered result page, flash-message
redirects, and the health JSON object. -/
inductive RespBody where
  | htmlErr : String → RespBody
  | htmlPage : PredictionResult → RespBody
  | jsonErr : String → RespBody
  | jsonOk : PredictionResult → RespBody
  | flashRedirect : String → RespBody
  | healthJson : String → Bool → RespBody
deriving DecidableEq

/-- An HTTP response: status code and body. -/
structure HttpResponse where
  status : Nat
  body : RespBody
deriving DecidableEq

/-- The steps of a request at which the runtime may raise an unexpected
exception: writing the uploaded bytes to disk, the backend prediction call
(beyond the modelled ValueError), and reading the stored file back for the
result page. -/
inductive FailStep where
  | store
  | infer
  | readBack
deriving DecidableEq

/-- The fail oracle under which no step raises. -/
def noFail : FailStep → Bool := fun _ => false

/-- A decoded upload request: whether the body was multipart, whether a field
named file was present, its declared filename, and the uploaded bytes. -/
structure UploadReq where
  multipart : Bool
  hasFileField : Bool
  filename : String
  content : List Nat
deriving DecidableEq

/-- The on-disk path app.py stores an upload at: uploads/filename. -/
def filePathApp (filename : String) : String := "uploads/" ++ filename

/-- The on-disk path simple_app.py stores an upload at: a fresh mkdtemp
directory joined with the client filename.  The directory name is irrelevant
to every downstream computation, so a fixed name stands for it. -/
def filePathSimple (filename : String) : String := "/tmp/t/" ++ filename

/-- simple_app.LungDiseaseHandler.handle_api_predict (lines 508-550).  Returns
the response and whether the mkdtemp directory is still on disk afterwards.
The temp directory is created and the bytes are written BEFORE the
try/finally whose finally runs shutil.rmtree, so an exception at the store
step reaches the outer except with the directory still present; every later
exception passes through the finally first. -/
def simple_api_predict (env : MockEnv) (fail : FailStep → Bool) (req : UploadReq) :
    HttpResponse × Bool :=
  if req.multipart = false then ({ status := 400, body := .jsonErr "Bad request" }, false)
  else if req.hasFileField = false then
    ({ status := 400, body := .jsonErr "No file uploaded" }, false)
  else if req.filename = "" then
    ({ status := 400, body := .jsonErr "No file selected" }, false)
  else if fail .store then
    ({ status := 500, body := .jsonErr "store failed" }, true)
  else if fail .infer then
    ({ status := 500, body := .jsonErr "internal error" }, false)
  else
    match predict_image_simple env (filePathSimple req.filename) (some req.content) with
    | .error msg => ({ status := 500, body := .jsonErr msg }, false)
    | .ok r => ({ status := 200, body := .jsonOk r }, false)

/-- simple_app.LungDiseaseHandler.handle_upload (lines 257-313), the browser
flow.  Same temp-directory lifecycle as the API route; errors surface through
send_error HTML pages, and the base64 read-back of the stored image happens
inside the try/finally. -/
def simple_handle_upload (env : MockEnv) (fail : FailStep → Bool) (req : UploadReq) :
    HttpResponse × Bool :=
  if req.multipart = false then ({ status := 400, body := .htmlErr "Bad request" }, false)
  else if req.hasFileField = false then
    ({ status := 400, body := .htmlErr "No file uploaded" }, false)
  else if req.filename = "" then
    ({ status := 400, body := .htmlErr "No file selected" }, false)
  else if fail .store then
    ({ status := 500, body := .htmlErr "Error processing image: store failed" }, true)
  else if fail .infer then
    ({ status := 500, body := .htmlErr "Error processing image: internal error" }, false)
  else
    match predict_image_simple env (filePathSimple req.filename) (some req.content) with
    | .error msg =>
      ({ status := 500, body := .htmlErr ("Error processing image: " ++ msg) }, false)
    | .ok r =>
      if fail .readBack then
        ({ status := 500, body := .htmlErr "Error processing image: read failed" }, false)
      else ({ status := 200, body := .htmlPage r }, false)

/-- app.allowed_file (lines 36-38): a dot is present and the lowercased text
after the last dot is one of png, jpg, jpeg, gif. -/
def allowed_file (filename : String) : Bool :=
  filename.toList.contains '.' &&
    decide (lowerStr (String.mk (afterLastDot filename.toList))
      ∈ ["png", "jpg", "jpeg", "gif"])

/-- app.api_predict (app.py lines 115-160).  Parameters: pv models
PIL-based validate_image (app.py lines 40-47), bk models the trained network
output model.predict for the stored path.  Returns the response and whether
the per-request upload file is still on disk afterwards: every exit path,
including the except handler, removes it, because the except block deletes
file_path whenever it exists. -/
def app_api_predict (pv : String → List Nat → Bool) (bk : String → List ℚ)
    (fail : FailStep → Bool) (req : UploadReq) : HttpResponse × Bool :=
  if req.hasFileField = false then
    ({ status := 400, body := .jsonErr "No file uploaded" }, false)
  else if req.filename = "" then
    ({ status := 400, body := .jsonErr "No file selected" }, false)
  else if allowed_file req.filename = false then
    ({ status := 400, body := .jsonErr "Invalid file type" }, false)
  else if fail .store then
    ({ status := 500, body := .jsonErr "store failed" }, false)
  else if pv (filePathApp req.filename) req.content = false then
    ({ status := 400, body := .jsonErr "Invalid image file" }, false)
  else if fail .infer then
    ({ status := 500, body := .jsonErr "internal error" }, false)
  else
    ({ status := 200, body := .jsonOk (predict_image (bk (filePathApp req.filename))) }, false)

/-- app.upload_file (app.py lines 54-113), the browser flow: flash-message
redirects for client errors and for the except handler, which also removes the
stored file whenever it exists. -/
def app_upload_file (pv : String → List Nat → Bool) (bk : String → List ℚ)
    (fail : FailStep → Bool) (req : UploadReq) : HttpResponse × Bool :=
  if req.hasFileField = false then
    ({ status := 302, body := .flashRedirect "No file uploaded" }, false)
  else if req.filename = "" then
    ({ status := 302, body := .flashRedirect "No file selected" }, false)
  else if allowed_file req.filename = false then
    ({ status := 302, body := .flashRedirect "Invalid file type. Please upload PNG, JPG, JPEG, or GIF files." }, false)
  else if fail .store then
    ({ status := 302, body := .flashRedirect "Error processing image: store failed" }, false)
  else if pv (filePathApp req.filename) req.content = false then
    ({ status := 302, body := .flashRedirect "Invalid image file. Please upload a valid image." }, false)
  else if fail .infer then
    ({ status := 302, body := .flashRedirect "Error processing image: internal error" }, false)
  else if fail .readBack then
    ({ status := 302, body := .flashRedirect "Error processing image: read failed" }, false)
  else
    ({ status := 200, body := .htmlPage (predict_image (bk (filePathApp req.filename))) }, false)

/-- simple_model.SimpleLungDiseaseModel: holds only the model_loaded flag,
set to True by the constructor. -/
structure SimpleLungDiseaseModel where
  model_loaded : Bool
deriving DecidableEq

/-- simple_model.load_simple_model (lines 119-124): constructs the mock model
with model_loaded = True. -/
def load_simple_model : SimpleLungDiseaseModel := { model_loaded := true }

/-- SimpleLungDiseaseModel.is_loaded. -/
def SimpleLungDiseaseModel.is_loaded (m : SimpleLungDiseaseModel) : Bool :=
  m.model_loaded

/-- simple_app.get_model (lines 21-25): return the global singleton,
constructing it first when it is None.  Returns the model and the new global
state. -/
def get_model (s : Option SimpleLungDiseaseModel) :
    SimpleLungDiseaseModel × Option SimpleLungDiseaseModel :=
  match s with
  | none => (load_simple_model, some load_simple_model)
  | some m => (m, some m)

/-- simple_app.LungDiseaseHandler.serve_health (lines 552-559): calls
get_model() and reports its is_loaded flag.  Returns the new global state and
the response. -/
def simple_serve_health (s : Option SimpleLungDiseaseModel) :
    Option SimpleLungDiseaseModel × HttpResponse :=
  let p := get_model s
  (p.2, { status := 200, body := .healthJson "healthy" p.1.is_loaded })

/-- app.health_check (app.py lines 162-168): reads the global model variable
without ever assigning it, so the state is passed by value and unchanged; the
reported flag is model is not None. -/
def app_health_check {α : Type} (s : Option α) : HttpResponse :=
  { status := 200, body := .healthJson "healthy" s.isSome }

/-- MAX_FILE_SIZE of app.py line 24: 16 MiB. -/
def MAX_FILE_SIZE : Nat := 16 * 1024 * 1024

/-- Modelled from the spec and the documented behavior of the Flask setting
app.config MAX_CONTENT_LENGTH (app.py line 27), whose enforcement lives in
werkzeug rather than in this repository: a request whose body length exceeds
the limit is answered 413 before the route handler runs; app.py line 170-174
converts that into the flash message below.  Requests within the limit reach
the handler unchanged. -/
def flask_dispatch (handler : UploadReq → HttpResponse) (bodyLen : Nat)
    (req : UploadReq) : HttpResponse :=
  if MAX_FILE_SIZE < bodyLen then
    { status := 413, body := .flashRedirect "File too large. Maximum size is 16MB." }
  else handler req

/-- simple_app.LungDiseaseHandler.do_POST (lines 41-51) applies no body-size
check: the request goes straight to the route handler. -/
def simple_do_POST (env : MockEnv) (fail : FailStep → Bool) (req : UploadReq) :
    HttpResponse × Bool :=
  simple_api_predict env fail req

/-- keras image.img_to_array on the decoded RGB image: the 8-bit samples as a
float tensor, here rows of pixels of channel values cast to rationals. -/
def img_to_array (img : List (List (List Nat))) : List (List (List ℚ)) :=
  img.map (fun row => row.map (fun px => px.map (fun (v : Nat) => (v : ℚ))))

/-- model.preprocess_image (model.py lines 70-81) after image.load_img has
decoded and resized the file to IMG_SIZE: convert to an array, wrap in a batch
dimension with np.expand_dims, and divide every sample by 255.  The caller
supplies the decoded image; the load_img contract (224 x 224 pixels, 3
channels, samples below 256) appears as hypotheses of the theorem. -/
def preprocess_image (img : List (List (List Nat))) : List (List (List (List ℚ))) :=
  [img_to_array img].map
    (fun t => t.map (fun row => row.map (fun px => px.map (fun v => v / 255))))

lemma nth_mem {l : List ℚ} {j : Nat} (hj : j < l.length) : nth l j ∈ l := by
  induction l generalizing j with
  | nil => simp at hj
  | cons b t ih =>
    cases j with
    | zero => simp [nth]
    | succ n =>
      have hn : n < t.length := by simpa using hj
      have hstep : nth (b :: t) (n + 1) = nth t n := by simp [nth]
      rw [hstep]
      exact List.mem_cons_of_mem _ (ih hn)

/-- C2: for every 3-entry distribution handed to the result formatter (the
shape both backends produce), the reported confidence equals the distribution
entry at the predicted index, the predicted index is an argmax of the
distribution, and among equal maxima the lowest index is chosen. -/
theorem c2_formatter_argmax (probs : List ℚ) (h3 : probs.length = 3) :
    predictedIdx probs < 3 ∧
    (predict_image probs).confidence = nth probs (predictedIdx probs) ∧
    (∀ j, j < 3 → nth probs j ≤ nth probs (predictedIdx probs)) ∧
    (∀ j, j < 3 → nth probs j = nth probs (predictedIdx probs) →
      predictedIdx probs ≤ j) := by
  have hne : probs ≠ [] := by
    intro h
    rw [h] at h3
    simp at h3
  have hmem : listMax probs ∈ probs := listMax_mem hne
  have hidx : nth probs (predictedIdx probs) = listMax probs := nth_indexOf hmem
  refine ⟨?_, rfl, ?_, ?_⟩
  · have hlt := indexOf_lt_length_of_mem hmem
    rw [h3] at hlt
    exact hlt
  · intro j hj
    rw [hidx]
    have hjl : j < probs.length := by rw [h3]; exact hj
    exact le_listMax (nth_mem hjl)
  · intro j hj he
    have hjl : j < probs.length := by rw [h3]; exact hj
    exact indexOf_le_of_nth hjl (by rw [he, hidx])

/-- Witness for C2 at the concrete tied distribution [1/2, 1/4, 1/2]. -/
theorem c2_witness :
    (predict_image [(1:ℚ)/2, 1/4, 1/2]).confidence
      = nth [(1:ℚ)/2, 1/4, 1/2] (predictedIdx [(1:ℚ)/2, 1/4, 1/2]) ∧
    predictedIdx [(1:ℚ)/2, 1/4, 1/2] < 3 :=
  ⟨(c2_formatter_argmax [(1:ℚ)/2, 1/4, 1/2] rfl).2.1,
   (c2_formatter_argmax [(1:ℚ)/2, 1/4, 1/2] rfl).1⟩

lemma uniformDraw_bounds {u : ℚ} (h0 : 0 ≤ u) (h1 : u < 1) :
    1/10 ≤ uniformDraw u (1/10) (9/10) ∧ uniformDraw u (1/10) (9/10) < 9/10 := by
  unfold uniformDraw
  constructor <;> nlinarith

/-- The normalized mock distribution is a 3-list whose entries lie in
[1/19, 9/11] and sum to exactly 1, whenever the PRNG draws respect the
random.random contract. -/
lemma mock_probs_spec (env : MockEnv) (hv : env.Valid) (seed : Nat) :
    ∃ p0 p1 p2 : ℚ,
      normalizeProbs (rawProbs env seed) = [p0, p1, p2] ∧
      (1/19 ≤ p0 ∧ p0 ≤ 9/11) ∧ (1/19 ≤ p1 ∧ p1 ≤ 9/11) ∧
      (1/19 ≤ p2 ∧ p2 ≤ 9/11) ∧ p0 + p1 + p2 = 1 := by
  obtain ⟨hr00, hr01⟩ := uniformDraw_bounds (hv seed 0).1 (hv seed 0).2
  obtain ⟨hr10, hr11⟩ := uniformDraw_bounds (hv seed 1).1 (hv seed 1).2
  obtain ⟨hr20, hr21⟩ := uniformDraw_bounds (hv seed 2).1 (hv seed 2).2
  set r0 : ℚ := uniformDraw (env.rand seed 0) (1/10) (9/10) with hdef0
  set r1 : ℚ := uniformDraw (env.rand seed 1) (1/10) (9/10) with hdef1
  set r2 : ℚ := uniformDraw (env.rand seed 2) (1/10) (9/10) with hdef2
  have ht : (0:ℚ) < r0 + r1 + r2 := by linarith
  have hS : ([r0, r1, r2] : List ℚ).sum = r0 + r1 + r2 := by
    simp
    ring
  refine ⟨r0 / (r0 + r1 + r2), r1 / (r0 + r1 + r2), r2 / (r0 + r1 + r2), ?_, ?_, ?_, ?_, ?_⟩
  · rw [rawProbs_eq]
    unfold normalizeProbs
    rw [List.map_cons, List.map_cons, List.map_cons, List.map_nil, hS]
  · exact div_bounds r0 (r0 + r1 + r2) hr00 hr01 (by linarith) (by linarith)
  · have h := div_bounds r1 (r0 + r1 + r2) hr10 hr11 (by linarith) (by linarith)
    exact h
  · exact div_bounds r2 (r0 + r1 + r2) hr20 hr21 (by linarith) (by linarith)
  · field_simp

/-- C3: for every request input, the mock backend produces a distribution of
exactly 3 values, keyed by the three fixed class labels in order, each value
in [0,1], and summing to 1 within tolerance 1/10000 (the sum is exactly 1 in
exact arithmetic). -/
theorem c3_mock_distribution (env : MockEnv) (hv : env.Valid) (img_path : String)
    (content : List Nat) :
    (generate_deterministic_prediction env img_path content).all_predictions.length = 3 ∧
    (generate_deterministic_prediction env img_path content).all_predictions.map Prod.fst
      = CLASS_LABELS ∧
    (∀ pr ∈ (generate_deterministic_prediction env img_path content).all_predictions,
      0 ≤ pr.2 ∧ pr.2 ≤ 1) ∧
    |((generate_deterministic_prediction env img_path content).all_predictions.map
        Prod.snd).sum - 1| ≤ 1/10000 := by
  obtain ⟨p0, p1, p2, heq, hb0, hb1, hb2, hsum⟩ :=
    mock_probs_spec env hv (mockSeed env (basenameStr img_path) content.length)
  have hgen : (generate_deterministic_prediction env img_path content).all_predictions
      = [("Lung Opacity", p0), ("Normal", p1), ("Viral Pneumonia", p2)] := by
    unfold generate_deterministic_prediction formatResult
    rw [heq]
    rfl
  rw [hgen]
  refine ⟨rfl, rfl, ?_, ?_⟩
  · intro pr hpr
    have hcases : pr = ("Lung Opacity", p0) ∨ pr = ("Normal", p1) ∨
        pr = ("Viral Pneumonia", p2) := by simpa using hpr
    rcases hcases with rfl | rfl | rfl
    · exact ⟨by linarith [hb0.1], by linarith [hb0.2]⟩
    · exact ⟨by linarith [hb1.1], by linarith [hb1.2]⟩
    · exact ⟨by linarith [hb2.1], by linarith [hb2.2]⟩
  · have hmap : (([("Lung Opacity", p0), ("Normal", p1), ("Viral Pneumonia", p2)] :
        List (String × ℚ)).map Prod.snd).sum = p0 + p1 + p2 := by
      simp
      ring
    rw [hmap, hsum]
    norm_num

/-- The fixed concrete environment used by the witnesses: a constant digest
and a PRNG that always draws 1/2. -/
def env0 : MockEnv := { md5first8 := fun _ => 0, rand := fun _ _ => 1/2 }

/-- Witness for C3 at a concrete input under env0. -/
theorem c3_witness :
    (generate_deterministic_prediction env0 "x.png" [1, 2, 3]).all_predictions.length = 3 :=
  (c3_mock_distribution env0
    (fun _ _ => ⟨by norm_num [env0], by norm_num [env0]⟩) "x.png" [1, 2, 3]).1

/-- C4: the mock backend output is a function solely of the basename of the
stored path and the byte size of the content: any two calls agreeing on those
two values, with arbitrarily different content bytes and directories, yield
identical predictions.  A single MockEnv models the fixed md5 and
Mersenne-Twister algorithms shared by every process. -/
theorem c4_mock_deterministic (env : MockEnv) (path1 path2 : String)
    (content1 content2 : List Nat)
    (hname : basenameStr path1 = basenameStr path2)
    (hsize : content1.length = content2.length) :
    generate_deterministic_prediction env path1 content1
      = generate_deterministic_prediction env path2 content2 := by
  unfold generate_deterministic_prediction
  rw [hname, hsize]

/-- Witness for C4: same basename and size, different directory and bytes. -/
theorem c4_witness :
    generate_deterministic_prediction env0 "a/x.png" [0, 1]
      = generate_deterministic_prediction env0 "x.png" [7, 9] :=
  c4_mock_deterministic env0 "a/x.png" "x.png" [0, 1] [7, 9] (by decide) (by decide)

/-- C5: the image validator is a total boolean function (the embedding is
total, mirroring the try/except that converts any read failure into False),
and it returns false for a missing file, for zero-byte files, for paths whose
extension is outside the allowed set, and for contents whose leading bytes
match no known image signature. -/
theorem c5_validator_rejects (img_path : String) (content : List Nat) :
    validate_image_simple img_path none = false ∧
    (content.length = 0 → validate_image_simple img_path (some content) = false) ∧
    (extOf (lowerStr img_path) ∉ validExtensions →
      validate_image_simple img_path (some content) = false) ∧
    (matchesSignature (content.take 10) = false →
      validate_image_simple img_path (some content) = false) := by
  refine ⟨rfl, ?_, ?_, ?_⟩
  · intro h
    unfold validate_image_simple
    simp [h]
  · intro h
    unfold validate_image_simple
    simp [h]
  · intro h
    simp only [validate_image_simple]
    split_ifs with h1 h2
    · rfl
    · exact h
    · rfl

/-- Witness for C5: the zero-byte rejection at a concrete path. -/
theorem c5_witness : validate_image_simple "x.png" (some []) = false :=
  (c5_validator_rejects "x.png" []).2.1 rfl

/-- C10: under the random.random contract every normalized mock probability
lies in [1/19, 9/11], and the reported confidence lies in [1/3, 9/11]: the
mock never emits a near-certain or near-zero class probability. -/
theorem c10_mock_bounds (env : MockEnv) (hv : env.Valid) (img_path : String)
    (content : List Nat) :
    (∀ pr ∈ (generate_deterministic_prediction env img_path content).all_predictions,
      1/19 ≤ pr.2 ∧ pr.2 ≤ 9/11) ∧
    1/3 ≤ (generate_deterministic_prediction env img_path content).confidence ∧
    (generate_deterministic_prediction env img_path content).confidence ≤ 9/11 := by
  obtain ⟨p0, p1, p2, heq, hb0, hb1, hb2, hsum⟩ :=
    mock_probs_spec env hv (mockSeed env (basenameStr img_path) content.length)
  have hgen : generate_deterministic_prediction env img_path content
      = formatResult [p0, p1, p2] := by
    unfold generate_deterministic_prediction
    rw [heq]
  have hconf : (formatResult [p0, p1, p2]).confidence = listMax [p0, p1, p2] := by
    unfold formatResult
    exact nth_indexOf (listMax_mem (by simp))
  have hM : listMax [p0, p1, p2] = max p0 (max p1 p2) := by simp [listMax]
  rw [hgen]
  refine ⟨?_, ?_, ?_⟩
  · intro pr hpr
    have hcases : pr = ("Lung Opacity", p0) ∨ pr = ("Normal", p1) ∨
        pr = ("Viral Pneumonia", p2) := by
      simpa [formatResult, CLASS_LABELS] using hpr
    rcases hcases with rfl | rfl | rfl
    · exact hb0
    · exact hb1
    · exact hb2
  · rw [hconf, hM]
    have ha : p0 ≤ max p0 (max p1 p2) := le_max_left _ _
    have hb : p1 ≤ max p0 (max p1 p2) := le_trans (le_max_left _ _) (le_max_right _ _)
    have hc : p2 ≤ max p0 (max p1 p2) := le_trans (le_max_right _ _) (le_max_right _ _)
    linarith
  · rw [hconf, hM]
    exact max_le hb0.2 (max_le hb1.2 hb2.2)

/-- Witness for C10 at a concrete input under env0. -/
theorem c10_witness :
    1/3 ≤ (generate_deterministic_prediction env0 "x.png" [1, 2, 3]).confidence :=
  (c10_mock_bounds env0
    (fun _ _ => ⟨by norm_num [env0], by norm_num [env0]⟩) "x.png" [1, 2, 3]).2.1

/-- C1 (amended): the per-request temporary storage is removed on success, on
validation failure, and on any exception raised after the bytes are stored; in
the dependency-free server the temp directory survives exactly when the store
step itself raises, because mkdtemp and the byte write precede the try/finally
(simple_app.py lines 290-294 and 536-540), while the Flask variant also cleans
up around the store step.  Under the hypothesis that the store step does not
raise, no handler leaves its temporary storage behind. -/
theorem c1_temp_cleanup (env : MockEnv) (pv : String → List Nat → Bool)
    (bk : String → List ℚ) (fail : FailStep → Bool) (req : UploadReq)
    (hstore : fail FailStep.store = false) :
    (simple_handle_upload env fail req).2 = false ∧
    (simple_api_predict env fail req).2 = false ∧
    (app_upload_file pv bk fail req).2 = false ∧
    (app_api_predict pv bk fail req).2 = false := by
  refine ⟨?_, ?_, ?_, ?_⟩
  · unfold simple_handle_upload
    split_ifs with h1 h2 h3 h4 h5 h6
    · rfl
    · rfl
    · rfl
    · rw [hstore] at h4
      simp at h4
    · rfl
    · cases predict_image_simple env (filePathSimple req.filename) (some req.content) <;> rfl
    · cases predict_image_simple env (filePathSimple req.filename) (some req.content) <;> rfl
  · unfold simple_api_predict
    split_ifs with h1 h2 h3 h4 h5
    · rfl
    · rfl
    · rfl
    · rw [hstore] at h4
      simp at h4
    · rfl
    · cases predict_image_simple env (filePathSimple req.filename) (some req.content) with
      | error msg => rfl
      | ok r => rfl
  · unfold app_upload_file
    split_ifs <;> rfl
  · unfold app_api_predict
    split_ifs <;> rfl

/-- Witness for C1 at a concrete request with no failing step. -/
theorem c1_witness :
    (simple_api_predict env0 noFail
      { multipart := true, hasFileField := true, filename := "x.png", content := [1] }).2
      = false :=
  (c1_temp_cleanup env0 (fun _ _ => true) (fun _ => []) noFail
    { multipart := true, hasFileField := true, filename := "x.png", content := [1] }
    rfl).2.1

/-- The fail oracle under which exactly the store step raises. -/
def failStore : FailStep → Bool
  | .store => true
  | _ => false

/-- Counterexample to C1 as stated: in the dependency-free server, a request
whose byte write raises is answered (500) with the freshly created temp
directory still on disk, so a per-request temporary directory does remain
after the request completes. -/
theorem c1_counterexample :
    (simple_api_predict env0 failStore
      { multipart := true, hasFileField := true, filename := "x.png", content := [1] }).2
      = true ∧
    (simple_api_predict env0 failStore
      { multipart := true, hasFileField := true, filename := "x.png", content := [1] }).1.status
      = 500 := by
  constructor <;> rfl

/-- C6 (amended): on POST /api/predict, the Flask variant answers every
validation failure (no file field, empty filename, disallowed extension,
failed image validation) with status 400 and produces 500 only when an
internal step raised; the dependency-free variant answers the missing-field
and empty-filename failures with 400, but a stored file that fails validation
surfaces as ValueError through the generic handler and is answered 500. -/
theorem c6_api_errors (pv : String → List Nat → Bool) (bk : String → List ℚ)
    (env : MockEnv) (req : UploadReq) (hm : req.multipart = true) :
    (req.hasFileField = false →
      (app_api_predict pv bk noFail req).1.status = 400 ∧
      (simple_api_predict env noFail req).1.status = 400) ∧
    (req.hasFileField = true → req.filename = "" →
      (app_api_predict pv bk noFail req).1.status = 400 ∧
      (simple_api_predict env noFail req).1.status = 400) ∧
    (req.hasFileField = true → req.filename ≠ "" → allowed_file req.filename = false →
      (app_api_predict pv bk noFail req).1.status = 400) ∧
    (req.hasFileField = true → req.filename ≠ "" → allowed_file req.filename = true →
      pv (filePathApp req.filename) req.content = false →
      (app_api_predict pv bk noFail req).1.status = 400) ∧
    (∀ fail : FailStep → Bool,
      (app_api_predict pv bk fail req).1.status = 500 →
      fail FailStep.store = true ∨ fail FailStep.infer = true) ∧
    (req.hasFileField = true → req.filename ≠ "" →
      validate_image_simple (filePathSimple req.filename) (some req.content) = false →
      (simple_api_predict env noFail req).1.status = 500) := by
  refine ⟨?_, ?_, ?_, ?_, ?_, ?_⟩
  · intro h
    constructor
    · simp [app_api_predict, h]
    · simp [simple_api_predict, hm, h]
  · intro h1 h2
    constructor
    · simp [app_api_predict, h1, h2]
    · simp [simple_api_predict, hm, h1, h2]
  · intro h1 h2 h3
    simp [app_api_predict, h1, h2, h3]
  · intro h1 h2 h3 h4
    simp [app_api_predict, h1, h2, h3, h4, noFail]
  · intro fail h
    unfold app_api_predict at h
    split_ifs at h with h1 h2 h3 h4 h5 h6
    · simp at h
    · simp at h
    · simp at h
    · exact Or.inl h4
    · simp at h
    · exact Or.inr h6
    · simp at h
  · intro h1 h2 h3
    simp [simple_api_predict, hm, h1, h2, noFail, predict_image_simple, h3]

/-- Witness for C6: a request with no file field is answered 400 by the Flask
API route. -/
theorem c6_witness :
    (app_api_predict (fun _ _ => true) (fun _ => []) noFail
      { multipart := true, hasFileField := false, filename := "", content := [] }).1.status
      = 400 :=
  ((c6_api_errors (fun _ _ => true) (fun _ => []) env0
    { multipart := true, hasFileField := false, filename := "", content := [] } rfl).1
    rfl).1

/-- A request carrying a file whose extension is disallowed. -/
def reqTxt : UploadReq :=
  { multipart := true, hasFileField := true, filename := "x.txt", content := [1, 2, 3] }

/-- Counterexample to C6 as stated: in the dependency-free variant an upload
that fails validation (disallowed .txt extension, no image signature) is
answered 500 by the generic handler, not 400. -/
theorem c6_counterexample :
    validate_image_simple (filePathSimple reqTxt.filename) (some reqTxt.content) = false ∧
    (simple_api_predict env0 noFail reqTxt).1
      = { status := 500, body := .jsonErr "Invalid image file" } := by
  constructor <;> rfl

/-- C7 (amended): both health routes answer 200 with status healthy and a
boolean model_loaded field.  The Flask variant reports whether the singleton
is initialized and leaves it untouched; the dependency-free variant calls
get_model, so it returns the initialized flag of the (possibly just
constructed) model and replaces an absent singleton with a fresh one. -/
theorem c7_health {α : Type} (s : Option α) (m : SimpleLungDiseaseModel) :
    app_health_check s = { status := 200, body := .healthJson "healthy" s.isSome } ∧
    simple_serve_health (some m)
      = (some m, { status := 200, body := .healthJson "healthy" m.model_loaded }) ∧
    (simple_serve_health none).1 = some load_simple_model ∧
    (simple_serve_health none).2 = { status := 200, body := .healthJson "healthy" true } :=
  ⟨rfl, rfl, rfl, rfl⟩

/-- Counterexample to C7 as stated: serving /health in the dependency-free
variant initializes the backend singleton (the state changes from none to
some) and reports model_loaded = true even though the singleton was not
initialized before the request. -/
theorem c7_counterexample :
    (simple_serve_health none).1 ≠ none ∧
    (none : Option SimpleLungDiseaseModel).isSome = false ∧
    (simple_serve_health none).2.body = .healthJson "healthy" true := by
  refine ⟨?_, rfl, rfl⟩
  intro h
  simp [simple_serve_health, get_model] at h

/-- C8 (amended): the Flask variant rejects any body larger than
MAX_FILE_SIZE with a client-facing too-large response before the route
handler runs, whatever the handler would have done; the dependency-free
variant applies no size check at all. -/
theorem c8_size_limit (handler : UploadReq → HttpResponse) (bodyLen : Nat)
    (req : UploadReq) (h : MAX_FILE_SIZE < bodyLen) :
    flask_dispatch handler bodyLen req
      = { status := 413,
          body := .flashRedirect "File too large. Maximum size is 16MB." } := by
  unfold flask_dispatch
  simp [h]

/-- Witness for C8: a 20 MiB body is rejected before a handler that would
have answered 200. -/
theorem c8_witness :
    flask_dispatch (fun _ => { status := 200, body := .jsonErr "" }) (20 * 1024 * 1024)
      { multipart := true, hasFileField := true, filename := "y.png", content := [] }
      = { status := 413,
          body := .flashRedirect "File too large. Maximum size is 16MB." } :=
  c8_size_limit _ (20 * 1024 * 1024) _ (by norm_num [MAX_FILE_SIZE])

/-- A well-formed 20 MiB PNG upload: PNG signature followed by padding. -/
def bigPng : List Nat := [0x89, 0x50, 0x4E, 0x47] ++ List.replicate (20 * 1024 * 1024 - 4) 0

/-- The oversized request built from bigPng. -/
def reqBig : UploadReq :=
  { multipart := true, hasFileField := true, filename := "x.png", content := bigPng }

/-- Counterexample to C8 as stated: the dependency-free variant accepts and
fully processes a 20 MiB upload (answering 200 with a prediction) instead of
rejecting it as too large. -/
theorem c8_counterexample :
    MAX_FILE_SIZE < reqBig.content.length ∧
    (simple_api_predict env0 noFail reqBig).1.status = 200 := by
  have hlen : bigPng.length = 20 * 1024 * 1024 := by
    show (([0x89, 0x50, 0x4E, 0x47] : List Nat)
        ++ List.replicate (20 * 1024 * 1024 - 4) 0).length = 20 * 1024 * 1024
    rw [List.length_append, List.length_replicate]
    norm_num
  constructor
  · show MAX_FILE_SIZE < bigPng.length
    rw [hlen]
    norm_num [MAX_FILE_SIZE]
  · have hext : extOf (lowerStr (filePathSimple reqBig.filename)) ∈ validExtensions := by
      decide
    have htake : bigPng.take 10 = [0x89, 0x50, 0x4E, 0x47, 0, 0, 0, 0, 0, 0] := by
      show (([0x89, 0x50, 0x4E, 0x47] : List Nat)
          ++ List.replicate (20 * 1024 * 1024 - 4) 0).take 10
          = [0x89, 0x50, 0x4E, 0x47, 0, 0, 0, 0, 0, 0]
      have h1 : (([0x89, 0x50, 0x4E, 0x47] : List Nat)).take 10
          = [0x89, 0x50, 0x4E, 0x47] := rfl
      have h2 : 10 - (([0x89, 0x50, 0x4E, 0x47] : List Nat)).length = 6 := rfl
      rw [List.take_append_eq_append_take, h1, h2, List.take_replicate,
        min_eq_left (by norm_num)]
      rfl
    have hne : ¬ (bigPng.length = 0) := by
      rw [hlen]
      norm_num
    have hval : validate_image_simple (filePathSimple reqBig.filename)
        (some reqBig.content) = true := by
      show validate_image_simple (filePathSimple reqBig.filename) (some bigPng) = true
      simp only [validate_image_simple]
      rw [if_pos hext, if_neg hne, htake]
      decide
    have hpred : predict_image_simple env0 (filePathSimple reqBig.filename)
        (some reqBig.content)
        = Except.ok (generate_deterministic_prediction env0
            (filePathSimple reqBig.filename) ((some reqBig.content).getD [])) := by
      unfold predict_image_simple
      rw [if_pos hval]
    simp only [simple_api_predict, hpred]
    rw [if_neg (by decide : ¬(reqBig.multipart = false)),
      if_neg (by decide : ¬(reqBig.hasFileField = false)),
      if_neg (by decide : ¬(reqBig.filename = "")),
      if_neg (by decide : ¬(noFail FailStep.store = true)),
      if_neg (by decide : ¬(noFail FailStep.infer = true))]

/-- The canonical single-map form of the preprocessing pipeline. -/
lemma preprocess_image_eq (img : List (List (List Nat))) :
    preprocess_image img
      = [img.map (fun row => row.map (fun px =>
          px.map (fun (v : Nat) => (v : ℚ) / 255)))] := by
  simp [preprocess_image, img_to_array, List.map_map, Function.comp]

/-- C9: for every decoded 224 x 224 RGB image with 8-bit samples, the
preprocessing output is a batch of size 1 over a 224 x 224 x 3 tensor whose
every value is a raw sample divided by 255 and lies in [0, 1]. -/
theorem c9_preprocess (img : List (List (List Nat)))
    (hh : img.length = 224)
    (hw : ∀ row ∈ img, row.length = 224)
    (hc : ∀ row ∈ img, ∀ px ∈ row, px.length = 3)
    (hb : ∀ row ∈ img, ∀ px ∈ row, ∀ v ∈ px, v ≤ 255) :
    (preprocess_image img).length = 1 ∧
    ∀ t ∈ preprocess_image img,
      t.length = 224 ∧
      (∀ row ∈ t, row.length = 224) ∧
      (∀ row ∈ t, ∀ px ∈ row, px.length = 3) ∧
      (∀ row ∈ t, ∀ px ∈ row, ∀ q ∈ px,
        ∃ raw : Nat, raw ≤ 255 ∧ q = (raw : ℚ) / 255 ∧ 0 ≤ q ∧ q ≤ 1) := by
  rw [preprocess_image_eq]
  refine ⟨rfl, ?_⟩
  intro t ht
  have ht2 : t = img.map (fun row => row.map (fun px =>
      px.map (fun (v : Nat) => (v : ℚ) / 255))) := by
    simpa using ht
  subst ht2
  refine ⟨by rw [List.length_map]; exact hh, ?_, ?_, ?_⟩
  · intro row hrow
    obtain ⟨row0, hrow0, hr⟩ := List.mem_map.mp hrow
    subst hr
    rw [List.length_map]
    exact hw row0 hrow0
  · intro row hrow px hpx
    obtain ⟨row0, hrow0, hr⟩ := List.mem_map.mp hrow
    subst hr
    obtain ⟨px0, hpx0, hp⟩ := List.mem_map.mp hpx
    subst hp
    rw [List.length_map]
    exact hc row0 hrow0 px0 hpx0
  · intro row hrow px hpx q hq
    obtain ⟨row0, hrow0, hr⟩ := List.mem_map.mp hrow
    subst hr
    obtain ⟨px0, hpx0, hp⟩ := List.mem_map.mp hpx
    subst hp
    obtain ⟨raw, hraw, hq2⟩ := List.mem_map.mp hq
    subst hq2
    have h255 := hb row0 hrow0 px0 hpx0 raw hraw
    refine ⟨raw, h255, rfl, by positivity, ?_⟩
    rw [div_le_one (by norm_num)]
    exact_mod_cast h255

/-- A uniform gray 224 x 224 RGB image. -/
def img0 : List (List (List Nat)) :=
  List.replicate 224 (List.replicate 224 (List.replicate 3 128))

/-- Witness for C9 at the concrete image img0. -/
theorem c9_witness : (preprocess_image img0).length = 1 := by
  refine (c9_preprocess img0 ?_ ?_ ?_ ?_).1
  · show (List.replicate 224 (List.replicate 224 (List.replicate 3 128))).length = 224
    rw [List.length_replicate]
  · intro row hrow
    simp only [img0] at hrow
    rw [List.eq_of_mem_replicate hrow, List.length_replicate]
  · intro row hrow px hpx
    simp only [img0] at hrow
    rw [List.eq_of_mem_replicate hrow] at hpx
    rw [List.eq_of_mem_replicate hpx, List.length_replicate]
  · intro row hrow px hpx v hv
    simp only [img0] at hrow
    rw [List.eq_of_mem_replicate hrow] at hpx
    rw [List.eq_of_mem_replicate hpx] at hv
    rw [List.eq_of_mem_replicate hv]
    norm_num
